import Mathlib

/-!
Verification of the metadata-catalog service (ingestion, linking, lookup).

The ingestion and linking core is embedded from `src/src/database/setup.py`
(`populate_database`, `_link_datasets_with_publications`).  The entity store,
the lookup endpoint (`get_dataset`) and the list endpoint (`list_datasets`)
live in repository files outside the provided sources (SQLAlchemy models and
API routers); they are modelled from the specification, as marked on each
definition.
-/

/-- In-memory Dataset Description record as produced by a connector fetch:
`name`, `node` and `node_specific_identifier` string attributes (spec §3). -/
structure DatasetDescription where
  name : String
  node : String
  node_specific_identifier : String
deriving DecidableEq, Repr

/-- In-memory Publication record: a `title` plus its linked datasets.
The `datasets` field is the publication side of the many-to-many
relationship, assigned by the linker before persistence (spec §3, §4.3). -/
structure Publication where
  title : String
  datasets : List DatasetDescription := []
deriving DecidableEq, Repr

/-- Value of a decimal digit character, `none` for any other character. -/
def digitVal (c : Char) : Option Nat :=
  if '0' ≤ c ∧ c ≤ '9' then some (c.toNat - '0'.toNat) else none

/-- Left-to-right accumulation of a decimal digit string. -/
def decDigitsAux (acc : Nat) : List Char → Option Nat
  | [] => some acc
  | c :: cs => match digitVal c with
    | none => none
    | some d => decDigitsAux (acc * 10 + d) cs

/-- Python's `int()` applied to a string: parses an optionally signed decimal
integer and raises `ValueError` (here: `none`) otherwise.  (Python also strips
whitespace and allows digit-group underscores; no identifier in this
repository's data uses those, so the plain signed decimal parse is the
faithful fragment.) -/
def pyInt (s : String) : Option Int :=
  match s.data with
  | [] => none
  | '-' :: cs => if cs.isEmpty then none else (decDigitsAux 0 cs).map (fun n => -(n : Int))
  | '+' :: cs => if cs.isEmpty then none else (decDigitsAux 0 cs).map (fun n => (n : Int))
  | cs => (decDigitsAux 0 cs).map (fun n => (n : Int))

/-- The fixed allow-list of OpenML benchmark dataset identifiers hard-coded in
`_link_datasets_with_publications` (src/src/database/setup.py lines 93-100). -/
def benchmark_dataset_ids : List Int := [
  181, 1111, 1596, 1457, 40981, 40983, 23517, 1489, 31, 40982, 41138, 41163, 41164, 41143,
  1169, 41167, 41147, 41158, 1487, 54, 41144, 41145, 41156, 41157, 41168, 4541, 1515, 188,
  1464, 1494, 1468, 1049, 23, 40975, 12, 1067, 40984, 40670, 3, 40978, 4134, 40701, 1475,
  4538, 4534, 41146, 41142, 40498, 40900, 40996, 40668, 4135, 1486, 41027, 1461, 1590, 41169,
  41166, 41165, 40685, 41159, 41161, 41150, 41162, 42733, 42734, 42732, 42746, 42742, 42769,
  43072]

/-- The predicate of the list comprehension at setup.py lines 102-106:
`d.node == "openml" and int(d.node_specific_identifier) in benchmark_dataset_ids`.
Python's `and` short-circuits, so `int()` is only evaluated (and can only
raise) when the node is `"openml"`; `none` models the raised `ValueError`. -/
def is_benchmark_dataset (d : DatasetDescription) : Option Bool :=
  if d.node == "openml" then
    (pyInt d.node_specific_identifier).map (fun n => benchmark_dataset_ids.contains n)
  else some false

/-- The materialisation of the `benchmark_datasets` list comprehension:
keeps the datasets satisfying `is_benchmark_dataset`, propagating the
`ValueError` of an unparseable identifier. -/
def select_benchmark_datasets : List DatasetDescription → Option (List DatasetDescription)
  | [] => some []
  | d :: ds =>
    match is_benchmark_dataset d with
    | none => none
    | some b => (select_benchmark_datasets ds).map (fun rest => if b then d :: rest else rest)

/-- Title literal at setup.py line 107. -/
def amlb_title : String := "AMLB: an AutoML Benchmark"

/-- Title literal at setup.py line 108 (`higgs_title`). -/
def higgs_title : String := "Searching for exotic particles in high-energy physics with deep learning"

/-- The in-place assignment of setup.py lines 110-111: a publication titled
`higgs_title` gets `datasets` replaced by all fetched datasets with node
`"openml"` and name `"Higgs"`; any other publication is untouched. -/
def apply_higgs_rule (datasets : List DatasetDescription) (p : Publication) : Publication :=
  if p.title == higgs_title then
    { p with datasets := datasets.filter (fun d => d.node == "openml" && d.name == "Higgs") }
  else p

/-- The in-place assignment of setup.py lines 112-113: a publication titled
`amlb_title` gets `datasets` replaced by the benchmark datasets of the batch;
any other publication is untouched. -/
def apply_benchmark_rule (benchmark_datasets : List DatasetDescription)
    (p : Publication) : Publication :=
  if p.title == amlb_title then { p with datasets := benchmark_datasets } else p

/-- Embedding of `_link_datasets_with_publications(datasets, publications)`
(src/src/database/setup.py lines 89-114).  The Python function mutates the
matching publications in place; here each in-place assignment to
`publication.datasets` becomes a functional update, applied in source order:
first the Higgs-title rule (lines 110-111), then the benchmark-title rule
(lines 112-113).  `none` models the `ValueError` raised by the unguarded
`int()` conversion at line 105. -/
def link_datasets_with_publications (datasets : List DatasetDescription)
    (publications : List Publication) :
    Option (List DatasetDescription × List Publication) :=
  match select_benchmark_datasets datasets with
  | none => none
  | some benchmark_datasets =>
    some (datasets,
      (publications.map (apply_higgs_rule datasets)).map
        (apply_benchmark_rule benchmark_datasets))

/-- Modelled from the spec: the SQLAlchemy model module (`database/models.py`,
declaring `DatasetDescription`, `Publication` and their association table) is
not among the provided sources.  A stored Dataset Description row: the
store-assigned surrogate integer id plus the three string attributes
(spec §3, §6 list endpoint: exactly id, name, node, node_specific_identifier). -/
structure StoredDataset where
  id : Nat
  name : String
  node : String
  node_specific_identifier : String
deriving DecidableEq, Repr

/-- Modelled from the spec: stored Publication row — surrogate integer id and
title (spec §3; other bibliographic fields are opaque pass-through). -/
structure StoredPublication where
  id : Nat
  title : String
deriving DecidableEq, Repr

/-- Modelled from the spec: the relational Entity Store (spec §4.2) — Dataset
Description rows, Publication rows, the many-to-many link rows
`(publication id, dataset id)`, and the autoincrement counters of the two
tables. -/
structure Store where
  datasets : List StoredDataset
  publications : List StoredPublication
  links : List (Nat × Nat)
  next_dataset_id : Nat
  next_publication_id : Nat
deriving DecidableEq, Repr

/-- A freshly created store: no rows, autoincrement counters at 1. -/
def Store.empty : Store := ⟨[], [], [], 1, 1⟩

/-- The emptiness check of setup.py lines 77-80:
`session.scalars(select(Publication)).first() or
 session.scalars(select(DatasetDescription)).first()` — true when at least one
Publication or Dataset Description row exists (spec §4.2 `has_any_data`). -/
def Store.has_any_data (s : Store) : Bool :=
  !s.publications.isEmpty || !s.datasets.isEmpty

/-- Index of the first occurrence of a dataset in the fetched batch (object
identity of the SQLAlchemy unit of work, rendered as first value match). -/
def firstIndexOf (ds : List DatasetDescription) (d : DatasetDescription) : Option Nat :=
  match ds with
  | [] => none
  | x :: xs => if x = d then some 0 else (firstIndexOf xs d).map (· + 1)

/-- Modelled from the spec: `insert_all` (spec §4.2), the effect of
`session.add_all(datasets); session.add_all(publications); session.commit()`
at setup.py lines 84-86.  Rows receive consecutive store-assigned ids; link
rows are derived from each publication's in-memory `datasets` references at
insert time (spec §4.2: "link rows are derived from the object graph at
insert time"). -/
def Store.insert_all (s : Store) (ds : List DatasetDescription) (ps : List Publication) : Store :=
  { datasets := s.datasets ++ ds.enum.map (fun e =>
      { id := s.next_dataset_id + e.1, name := e.2.name, node := e.2.node,
        node_specific_identifier := e.2.node_specific_identifier }),
    publications := s.publications ++ ps.enum.map (fun e =>
      { id := s.next_publication_id + e.1, title := e.2.title }),
    links := s.links ++ (ps.enum.map (fun e =>
      e.2.datasets.filterMap (fun d =>
        (firstIndexOf ds d).map (fun j => (s.next_publication_id + e.1, s.next_dataset_id + j))))).flatten,
    next_dataset_id := s.next_dataset_id + ds.length,
    next_publication_id := s.next_publication_id + ps.length }

/-- A dataset connector as used by `populate_database`: `fetch_all(limit)`
yields a sequence of Dataset Descriptions; a raised exception — at the
`fetch_all` call or while iterating its sequence — is an `error` carrying the
exception message (spec §4.1). -/
structure DatasetConnector where
  fetch_all : Option Nat → Except String (List DatasetDescription)

/-- A publication connector: as `DatasetConnector`, producing Publications. -/
structure PublicationConnector where
  fetch_all : Option Nat → Except String (List Publication)

/-- The chained fetch `itertools.chain(*[c.fetch_all(limit=limit) for c in connectors])`
materialised by `list(...)` (setup.py lines 60-62 and 70): concatenation in
connector-list order, failing at the first connector whose fetch raises. -/
def chain_fetch_all_datasets :
    List DatasetConnector → Option Nat → Except String (List DatasetDescription)
  | [], _ => .ok []
  | c :: cs, limit =>
    match c.fetch_all limit with
    | .error e => .error e
    | .ok xs =>
      match chain_fetch_all_datasets cs limit with
      | .error e => .error e
      | .ok ys => .ok (xs ++ ys)

/-- As `chain_fetch_all_datasets`, for the publication connectors
(setup.py lines 66-68 and 71). -/
def chain_fetch_all_publications :
    List PublicationConnector → Option Nat → Except String (List Publication)
  | [], _ => .ok []
  | c :: cs, limit =>
    match c.fetch_all limit with
    | .error e => .error e
    | .ok xs =>
      match chain_fetch_all_publications cs limit with
      | .error e => .error e
      | .ok ys => .ok (xs ++ ys)

/-- Lines 57-71 of setup.py: both fetch phases fully materialised in memory,
before linking and before any store access.  `None` connector lists default
to the empty iterable (lines 57-58 and 63-64). -/
def materialized_fetches (dataset_connectors : Option (List DatasetConnector))
    (publications_connectors : Option (List PublicationConnector))
    (limit_datasets limit_publications : Option Nat) :
    Except String (List DatasetDescription × List Publication) :=
  let dres := match dataset_connectors with
    | none => Except.ok []
    | some cs => chain_fetch_all_datasets cs limit_datasets
  match dres with
  | .error e => .error e
  | .ok datasets =>
    let pres := match publications_connectors with
      | none => Except.ok []
      | some cs => chain_fetch_all_publications cs limit_publications
    match pres with
    | .error e => .error e
    | .ok publications => .ok (datasets, publications)

/-- Embedding of `populate_database` (setup.py lines 47-86).  The store is threaded
explicitly: the first component is the call's outcome (a raised exception
becomes `error`), the second the store state after the call.  Faithful to the
source's order: fetch and materialise, link (which may raise on an
unparseable identifier), then inside the session check `only_if_empty and
data_exists` and either return without writing or add all rows and commit. -/
def populate_database (store : Store) (only_if_empty : Bool)
    (dataset_connectors : Option (List DatasetConnector))
    (publications_connectors : Option (List PublicationConnector))
    (limit_datasets limit_publications : Option Nat) :
    Except String Unit × Store :=
  match materialized_fetches dataset_connectors publications_connectors
      limit_datasets limit_publications with
  | .error e => (.error e, store)
  | .ok (datasets, publications) =>
    match link_datasets_with_publications datasets publications with
    | none => (.error "invalid literal for int() with base 10", store)
    | some (datasets, publications) =>
      if only_if_empty && store.has_any_data then (.ok (), store)
      else (.ok (), store.insert_all datasets publications)

/-- Modelled from the spec: the store lookup `find_dataset(node,
node_specific_identifier)` (spec §4.2) — exact-match lookup on the natural
key; the router code using it is not among the provided sources. -/
def Store.find_dataset (s : Store) (node identifier : String) : Option StoredDataset :=
  s.datasets.find? (fun d => d.node == node && d.node_specific_identifier == identifier)

/-- Modelled from the spec: a list-endpoint record (spec §6) — "each exposing
exactly id, name, node, node_specific_identifier". -/
structure DatasetRecord where
  id : Nat
  name : String
  node : String
  node_specific_identifier : String
deriving DecidableEq, Repr

/-- Modelled from the spec: the list endpoint `list_datasets` (spec §4.2, §4.4,
§6), whose router code is not among the provided sources — "returns all stored
Dataset Descriptions", "direct pass-through to the store", each record
"exposing exactly id, name, node, node_specific_identifier". -/
def list_datasets (s : Store) : List DatasetRecord :=
  s.datasets.map (fun d => ⟨d.id, d.name, d.node, d.node_specific_identifier⟩)

/-- The registry-enriched record returned by a connector's `fetch_single` and
by the lookup endpoint on an upstream fetch (spec §6: name, description,
distribution content URL + encoding format, size, source catalog name,
identifier). -/
structure EnrichedRecord where
  name : String
  description : String
  contentUrl : String
  encodingFormat : String
  size : Nat
  catalogName : String
  identifier : String
deriving DecidableEq, Repr

/-- A node connector as used by on-demand lookup: a display name (e.g.
"OpenML" for node "openml") and `fetch_single(identifier)`, which either
returns the enriched record or fails carrying the upstream registry's error
message (spec §4.1). -/
structure NodeConnector where
  display_name : String
  fetch_single : String → Except String EnrichedRecord

/-- The error taxonomy of the lookup endpoint (spec §6, §7). -/
inductive ServiceError where
  | notFoundInDatabase (identifier node : String)
  | notFoundUpstream (nodeDisplay msg : String)
  | unknownNode (node : String)
deriving DecidableEq, Repr

/-- The user-facing message of each error (spec §6 message formats). -/
def ServiceError.message : ServiceError → String
  | .notFoundInDatabase identifier node =>
      "Dataset '" ++ identifier ++ "' of '" ++ node ++ "' not found in the database."
  | .notFoundUpstream nodeDisplay msg =>
      "Error while fetching data from " ++ nodeDisplay ++ ": '" ++ msg ++ "'"
  | .unknownNode node =>
      "Node '" ++ node ++ "' not recognized."

/-- Result of the lookup endpoint: either the record already stored (cache
hit) or the record fetched upstream on a cache miss. -/
inductive LookupResult where
  | stored (d : StoredDataset)
  | fetched (r : EnrichedRecord)
deriving DecidableEq, Repr

/-- Modelled from the spec: the on-demand lookup endpoint `get_dataset(node,
node_specific_identifier)` (spec §4.4, §6), whose router code is not among
the provided sources.  Steps per spec §4.4: (1) query the store via
`find_dataset`, on a hit return the stored record with no external call;
(2) otherwise locate the connector registered for `node`, failing with
`UnknownNodeError` if none; (3) call its `fetch_single`, mapping an upstream
error message into the not-found error format of spec §6; (4) on success
return the fetched record (no write-back in this core). -/
def get_dataset (store : Store) (connectors : List (String × NodeConnector))
    (node identifier : String) : Except ServiceError LookupResult :=
  match store.find_dataset node identifier with
  | some d => .ok (.stored d)
  | none =>
    match connectors.lookup node with
    | none => .error (.unknownNode node)
    | some c =>
      match c.fetch_single identifier with
      | .ok r => .ok (.fetched r)
      | .error msg => .error (.notFoundUpstream c.display_name msg)

example :
    link_datasets_with_publications
      [⟨"anneal", "openml", "181"⟩, ⟨"other", "openml", "999"⟩]
      [⟨amlb_title, []⟩] =
    some ([⟨"anneal", "openml", "181"⟩, ⟨"other", "openml", "999"⟩],
          [⟨amlb_title, [⟨"anneal", "openml", "181"⟩]⟩]) := by decide

example :
    link_datasets_with_publications [⟨"bad", "openml", "not-a-number"⟩] [] = none := by decide

example :
    link_datasets_with_publications
      [⟨"Higgs", "openml", "23512"⟩, ⟨"Higgs", "other_node", "23512"⟩]
      [⟨higgs_title, []⟩] =
    some ([⟨"Higgs", "openml", "23512"⟩, ⟨"Higgs", "other_node", "23512"⟩],
          [⟨higgs_title, [⟨"Higgs", "openml", "23512"⟩]⟩]) := by decide

example :
    populate_database Store.empty true
      (some [⟨fun _ => .ok [⟨"anneal", "openml", "1"⟩]⟩]) none none none =
    (.ok (), ⟨[⟨1, "anneal", "openml", "1"⟩], [], [], 2, 1⟩) := rfl

example :
    populate_database ⟨[⟨1, "anneal", "openml", "1"⟩], [], [], 2, 1⟩ true
      (some [⟨fun _ => .ok [⟨"anneal", "openml", "1"⟩]⟩]) none none none =
    (.ok (), ⟨[⟨1, "anneal", "openml", "1"⟩], [], [], 2, 1⟩) := rfl

example :
    populate_database Store.empty true
      (some [⟨fun _ => .error "connection reset"⟩]) none none none =
    (.error "connection reset", Store.empty) := rfl

example :
    get_dataset ⟨[⟨1, "anneal", "openml", "1"⟩], [], [], 2, 1⟩
      [("openml", ⟨"OpenML", fun _ => .error "must not be called"⟩)] "openml" "1" =
    .ok (.stored ⟨1, "anneal", "openml", "1"⟩) := rfl

example :
    get_dataset ⟨[⟨1, "anneal", "openml", "1"⟩], [], [], 2, 1⟩
      [("openml", ⟨"OpenML", fun _ => .error "Unknown dataset"⟩)] "openml" "2" =
    .error (.notFoundUpstream "OpenML" "Unknown dataset") := rfl

example :
    (ServiceError.notFoundUpstream "OpenML" "Unknown dataset").message =
    "Error while fetching data from OpenML: 'Unknown dataset'" := rfl

/-- C1: for every (node, node_specific_identifier) pair whose Dataset
Description row is present in the store, `get_dataset` returns the stored
record, and does so for *every* connector registry — in particular for a
connector that fails if called — so no external fetch is made on a cache
hit. -/
theorem get_dataset_cache_hit_no_connector_call (store : Store)
    (node identifier : String) (d : StoredDataset)
    (h : store.find_dataset node identifier = some d) :
    ∀ connectors : List (String × NodeConnector),
      get_dataset store connectors node identifier = .ok (.stored d) := by
  intro connectors
  simp [get_dataset, h]

theorem get_dataset_cache_hit_no_connector_call_witness :
    get_dataset ⟨[⟨1, "anneal", "openml", "1"⟩], [], [], 2, 1⟩
      [("openml", ⟨"OpenML", fun _ => Except.error "connector must not be invoked"⟩)]
      "openml" "1" = .ok (.stored ⟨1, "anneal", "openml", "1"⟩) :=
  get_dataset_cache_hit_no_connector_call
    ⟨[⟨1, "anneal", "openml", "1"⟩], [], [], 2, 1⟩ "openml" "1"
    ⟨1, "anneal", "openml", "1"⟩ rfl
    [("openml", ⟨"OpenML", fun _ => Except.error "connector must not be invoked"⟩)]

/-- C2: for a (node, node_specific_identifier) pair absent from the store,
`get_dataset` falls back to the connector registered for `node`, calls its
`fetch_single`, and returns the upstream record with every mapped field —
name, description, content URL, encoding format, size, catalog name,
identifier — exactly as fetched. -/
theorem get_dataset_cache_miss_returns_upstream_record (store : Store)
    (connectors : List (String × NodeConnector)) (node identifier : String)
    (c : NodeConnector) (r : EnrichedRecord)
    (hmiss : store.find_dataset node identifier = none)
    (hconn : connectors.lookup node = some c)
    (hfetch : c.fetch_single identifier = .ok r) :
    get_dataset store connectors node identifier =
      .ok (.fetched ⟨r.name, r.description, r.contentUrl, r.encodingFormat,
                     r.size, r.catalogName, r.identifier⟩) := by
  simp [get_dataset, hmiss, hconn, hfetch]

theorem get_dataset_cache_miss_returns_upstream_record_witness :
    get_dataset Store.empty
      [("openml", ⟨"OpenML", fun _ => Except.ok ⟨"anneal", "a dataset", "u", "ARFF", 898, "OpenML", "1"⟩⟩)]
      "openml" "1" =
      .ok (.fetched ⟨"anneal", "a dataset", "u", "ARFF", 898, "OpenML", "1"⟩) :=
  get_dataset_cache_miss_returns_upstream_record Store.empty
    [("openml", ⟨"OpenML", fun _ => Except.ok ⟨"anneal", "a dataset", "u", "ARFF", 898, "OpenML", "1"⟩⟩)]
    "openml" "1"
    ⟨"OpenML", fun _ => Except.ok ⟨"anneal", "a dataset", "u", "ARFF", 898, "OpenML", "1"⟩⟩
    ⟨"anneal", "a dataset", "u", "ARFF", 898, "OpenML", "1"⟩ rfl rfl rfl

/-- C3: when the pair is absent locally and the registered connector's
upstream fetch reports an error with message `x`, `get_dataset` fails with
the not-found error whose rendered message is exactly
`Error while fetching data from <NODE>: '<x>'`, embedding `x` verbatim. -/
theorem get_dataset_upstream_error_message (store : Store)
    (connectors : List (String × NodeConnector)) (node identifier : String)
    (c : NodeConnector) (x : String)
    (hmiss : store.find_dataset node identifier = none)
    (hconn : connectors.lookup node = some c)
    (hfetch : c.fetch_single identifier = .error x) :
    get_dataset store connectors node identifier =
      .error (.notFoundUpstream c.display_name x) ∧
    (ServiceError.notFoundUpstream c.display_name x).message =
      "Error while fetching data from " ++ c.display_name ++ ": '" ++ x ++ "'" := by
  constructor
  · simp [get_dataset, hmiss, hconn, hfetch]
  · rfl

theorem get_dataset_upstream_error_message_witness :
    get_dataset Store.empty
      [("openml", ⟨"OpenML", fun _ => Except.error "Unknown dataset"⟩)] "openml" "1" =
      .error (.notFoundUpstream "OpenML" "Unknown dataset") ∧
    (ServiceError.notFoundUpstream "OpenML" "Unknown dataset").message =
      "Error while fetching data from " ++ "OpenML" ++ ": '" ++ "Unknown dataset" ++ "'" :=
  get_dataset_upstream_error_message Store.empty
    [("openml", ⟨"OpenML", fun _ => Except.error "Unknown dataset"⟩)] "openml" "1"
    ⟨"OpenML", fun _ => Except.error "Unknown dataset"⟩ "Unknown dataset" rfl rfl rfl

/-- C9: inserting exactly 3 Dataset Description rows into an empty store
makes `list_datasets` return exactly 3 records, whose ids `[1, 2, 3]` are
pairwise distinct and whose remaining exposed fields (name, node,
node_specific_identifier — with id, all four fields a `DatasetRecord` has)
are those of the inserted rows. -/
theorem list_datasets_three_rows (d1 d2 d3 : DatasetDescription) :
    (list_datasets (Store.empty.insert_all [d1, d2, d3] [])).length = 3 ∧
    (list_datasets (Store.empty.insert_all [d1, d2, d3] [])).map DatasetRecord.id = [1, 2, 3] ∧
    ((list_datasets (Store.empty.insert_all [d1, d2, d3] [])).map DatasetRecord.id).Nodup ∧
    (list_datasets (Store.empty.insert_all [d1, d2, d3] [])).map
        (fun r => (r.name, r.node, r.node_specific_identifier)) =
      [(d1.name, d1.node, d1.node_specific_identifier),
       (d2.name, d2.node, d2.node_specific_identifier),
       (d3.name, d3.node, d3.node_specific_identifier)] := by
  refine ⟨rfl, rfl, ?_, rfl⟩
  have h : (list_datasets (Store.empty.insert_all [d1, d2, d3] [])).map DatasetRecord.id
      = [1, 2, 3] := rfl
  rw [h]
  decide

/-- C4: against a store that already has data, `populate_database` with
`only_if_empty = true` leaves the store untouched — Dataset Description rows,
Publication rows and link rows are identical before and after the call — for
every configuration of connectors and limits, whether the call returns
normally (the guard's early return) or raises (a failed fetch or an
unparseable identifier). -/
theorem populate_only_if_empty_nonempty_noop (store : Store)
    (dataset_connectors : Option (List DatasetConnector))
    (publications_connectors : Option (List PublicationConnector))
    (limit_datasets limit_publications : Option Nat)
    (h : store.has_any_data = true) :
    (populate_database store true dataset_connectors publications_connectors
        limit_datasets limit_publications).2 = store := by
  unfold populate_database
  cases hm : materialized_fetches dataset_connectors publications_connectors
      limit_datasets limit_publications with
  | error e => rfl
  | ok v =>
    obtain ⟨ds, ps⟩ := v
    cases hl : link_datasets_with_publications ds ps with
    | none => simp [hl]
    | some w =>
      obtain ⟨ds2, ps2⟩ := w
      simp [hl, h]

theorem populate_only_if_empty_nonempty_noop_witness :
    (populate_database ⟨[⟨1, "anneal", "openml", "1"⟩], [], [], 2, 1⟩ true
        (some [⟨fun _ => Except.ok [⟨"krvskp", "openml", "3"⟩]⟩]) none none none).2 =
      ⟨[⟨1, "anneal", "openml", "1"⟩], [], [], 2, 1⟩ :=
  populate_only_if_empty_nonempty_noop ⟨[⟨1, "anneal", "openml", "1"⟩], [], [], 2, 1⟩
    (some [⟨fun _ => Except.ok [⟨"krvskp", "openml", "3"⟩]⟩]) none none none rfl

/-- C5: if the in-memory materialisation of the connector fetches fails —
some connector's `fetch_all` call or the iteration of its sequence raises —
then the whole `populate_database` call fails with that error and the store
is exactly the store from before the call: nothing is persisted. -/
theorem populate_fetch_failure_atomic (store : Store) (only_if_empty : Bool)
    (dataset_connectors : Option (List DatasetConnector))
    (publications_connectors : Option (List PublicationConnector))
    (limit_datasets limit_publications : Option Nat) (e : String)
    (h : materialized_fetches dataset_connectors publications_connectors
        limit_datasets limit_publications = .error e) :
    populate_database store only_if_empty dataset_connectors publications_connectors
        limit_datasets limit_publications = (.error e, store) := by
  unfold populate_database
  rw [h]

theorem populate_fetch_failure_atomic_witness :
    populate_database Store.empty false
      (some [⟨fun _ => Except.ok [⟨"anneal", "openml", "1"⟩]⟩])
      (some [⟨fun _ => Except.error "connection reset by peer"⟩]) none none =
      (.error "connection reset by peer", Store.empty) :=
  populate_fetch_failure_atomic Store.empty false
    (some [⟨fun _ => Except.ok [⟨"anneal", "openml", "1"⟩]⟩])
    (some [⟨fun _ => Except.error "connection reset by peer"⟩]) none none
    "connection reset by peer" rfl

theorem insert_all_nil (s : Store) : s.insert_all [] [] = s := by
  simp [Store.insert_all]

/-- C6: calling `populate_database` twice in succession with
`only_if_empty = true` against an initially empty store, with the same
connectors and limits, leaves the second call's store equal to the first
call's store — in particular the Dataset Description, Publication and link
row counts equal those after a single call: the second call inserts
nothing. -/
theorem populate_twice_idempotent
    (dataset_connectors : Option (List DatasetConnector))
    (publications_connectors : Option (List PublicationConnector))
    (limit_datasets limit_publications : Option Nat) :
    (populate_database
        (populate_database Store.empty true dataset_connectors publications_connectors
          limit_datasets limit_publications).2
        true dataset_connectors publications_connectors
        limit_datasets limit_publications).2 =
      (populate_database Store.empty true dataset_connectors publications_connectors
        limit_datasets limit_publications).2 ∧
    ((populate_database
        (populate_database Store.empty true dataset_connectors publications_connectors
          limit_datasets limit_publications).2
        true dataset_connectors publications_connectors
        limit_datasets limit_publications).2).datasets.length =
      ((populate_database Store.empty true dataset_connectors publications_connectors
        limit_datasets limit_publications).2).datasets.length ∧
    ((populate_database
        (populate_database Store.empty true dataset_connectors publications_connectors
          limit_datasets limit_publications).2
        true dataset_connectors publications_connectors
        limit_datasets limit_publications).2).publications.length =
      ((populate_database Store.empty true dataset_connectors publications_connectors
        limit_datasets limit_publications).2).publications.length ∧
    ((populate_database
        (populate_database Store.empty true dataset_connectors publications_connectors
          limit_datasets limit_publications).2
        true dataset_connectors publications_connectors
        limit_datasets limit_publications).2).links.length =
      ((populate_database Store.empty true dataset_connectors publications_connectors
        limit_datasets limit_publications).2).links.length := by
  have key : (populate_database
      (populate_database Store.empty true dataset_connectors publications_connectors
        limit_datasets limit_publications).2
      true dataset_connectors publications_connectors
      limit_datasets limit_publications).2 =
      (populate_database Store.empty true dataset_connectors publications_connectors
        limit_datasets limit_publications).2 := by
    cases hm : materialized_fetches dataset_connectors publications_connectors
        limit_datasets limit_publications with
    | error e => simp [populate_database, hm]
    | ok v =>
      obtain ⟨ds, ps⟩ := v
      cases hl : link_datasets_with_publications ds ps with
      | none => simp [populate_database, hm, hl]
      | some w =>
        obtain ⟨ds₂, ps₂⟩ := w
        have h₁ : (populate_database Store.empty true dataset_connectors
            publications_connectors limit_datasets limit_publications).2
            = Store.empty.insert_all ds₂ ps₂ := by
          simp [populate_database, hm, hl, Store.has_any_data, Store.empty]
        rw [h₁]
        cases hne : (Store.empty.insert_all ds₂ ps₂).has_any_data with
        | true => simp [populate_database, hm, hl, hne]
        | false =>
          have hnil : ds₂ = [] ∧ ps₂ = [] := by
            simp [Store.insert_all, Store.empty, Store.has_any_data,
              List.isEmpty_iff, List.map_eq_nil_iff, List.enum_eq_nil] at hne
            exact ⟨hne.2, hne.1⟩
          obtain ⟨rfl, rfl⟩ := hnil
          simp [populate_database, hm, hl, hne, insert_all_nil]
  refine ⟨key, ?_, ?_, ?_⟩ <;> rw [key]

theorem apply_higgs_rule_title (ds : List DatasetDescription) (p : Publication) :
    (apply_higgs_rule ds p).title = p.title := by
  unfold apply_higgs_rule
  split <;> rfl

theorem apply_benchmark_rule_title (bench : List DatasetDescription) (p : Publication) :
    (apply_benchmark_rule bench p).title = p.title := by
  unfold apply_benchmark_rule
  split <;> rfl

theorem mem_select_benchmark : ∀ (ds bench : List DatasetDescription),
    select_benchmark_datasets ds = some bench →
    ∀ d, d ∈ bench ↔ d ∈ ds ∧ is_benchmark_dataset d = some true := by
  intro ds
  induction ds with
  | nil =>
    intro bench h d
    simp [select_benchmark_datasets] at h
    subst h
    simp
  | cons x xs ih =>
    intro bench h d
    unfold select_benchmark_datasets at h
    cases hx : is_benchmark_dataset x with
    | none => rw [hx] at h; simp at h
    | some b =>
      rw [hx] at h
      cases hs : select_benchmark_datasets xs with
      | none => rw [hs] at h; simp at h
      | some rest =>
        rw [hs] at h
        simp only [Option.map_some', Option.some.injEq] at h
        subst h
        have hrest := ih rest hs d
        cases b with
        | true =>
          rw [show (if true = true then x :: rest else rest) = x :: rest from rfl,
            List.mem_cons, hrest, List.mem_cons]
          constructor
          · rintro (rfl | ⟨hm, hp⟩)
            · exact ⟨Or.inl rfl, hx⟩
            · exact ⟨Or.inr hm, hp⟩
          · rintro ⟨rfl | hm, hp⟩
            · exact Or.inl rfl
            · exact Or.inr ⟨hm, hp⟩
        | false =>
          rw [show (if false = true then x :: rest else rest) = rest from rfl,
            hrest, List.mem_cons]
          constructor
          · rintro ⟨hm, hp⟩
            exact ⟨Or.inr hm, hp⟩
          · rintro ⟨rfl | hm, hp⟩
            · rw [hx] at hp
              simp at hp
            · exact ⟨hm, hp⟩

theorem is_benchmark_true_iff (d : DatasetDescription) :
    is_benchmark_dataset d = some true ↔
    d.node = "openml" ∧ ∃ n, pyInt d.node_specific_identifier = some n ∧
      n ∈ benchmark_dataset_ids := by
  unfold is_benchmark_dataset
  by_cases h : d.node = "openml"
  · simp only [h, beq_self_eq_true, if_true]
    cases hp : pyInt d.node_specific_identifier with
    | none => simp
    | some n =>
      simp only [Option.map_some, Option.some.injEq, true_and, hp]
      constructor
      · intro hc
        exact ⟨n, rfl, by simpa using hc⟩
      · rintro ⟨m, hm, hmem⟩
        subst hm
        simpa using hmem
  · simp [h]

/-- C7: after the linker runs on the fetched batches, every publication
titled exactly "AMLB: an AutoML Benchmark" has its dataset set assigned to
the entire set of benchmark datasets of the batch — exactly the fetched
datasets with node "openml" whose node-specific identifier parses to an
integer in the fixed allow-list; in particular a fetched dataset with node
"openml" and identifier "181" is in that publication's dataset set. -/
theorem linker_amlb_benchmark (ds : List DatasetDescription) (ps : List Publication)
    (ds₂ bench : List DatasetDescription) (ps₂ : List Publication)
    (hsel : select_benchmark_datasets ds = some bench)
    (hlink : link_datasets_with_publications ds ps = some (ds₂, ps₂)) :
    ∀ p ∈ ps₂, p.title = amlb_title →
      p.datasets = bench ∧
      (∀ d, d ∈ p.datasets ↔ d ∈ ds ∧ d.node = "openml" ∧
        ∃ n, pyInt d.node_specific_identifier = some n ∧ n ∈ benchmark_dataset_ids) ∧
      (∀ d ∈ ds, d.node = "openml" → d.node_specific_identifier = "181" →
        d ∈ p.datasets) := by
  unfold link_datasets_with_publications at hlink
  rw [hsel] at hlink
  simp only [Option.some.injEq, Prod.mk.injEq] at hlink
  obtain ⟨hds, hps⟩ := hlink
  subst hps
  intro p hp ht
  rw [List.mem_map] at hp
  obtain ⟨r, hr, rfl⟩ := hp
  rw [List.mem_map] at hr
  obtain ⟨q, hq, rfl⟩ := hr
  have hqt : q.title = amlb_title := by
    rw [apply_benchmark_rule_title, apply_higgs_rule_title] at ht
    exact ht
  have hneq : (amlb_title == higgs_title) = false := by decide
  have h1 : apply_higgs_rule ds q = q := by
    unfold apply_higgs_rule
    simp [hqt, hneq]
  have h2 : apply_benchmark_rule bench (apply_higgs_rule ds q)
      = { q with datasets := bench } := by
    rw [h1]
    unfold apply_benchmark_rule
    simp [hqt]
  rw [h2]
  refine ⟨rfl, ?_, ?_⟩
  · intro d
    show d ∈ bench ↔ _
    rw [mem_select_benchmark ds bench hsel d, is_benchmark_true_iff]
  · intro d hd hnode hid
    show d ∈ bench
    rw [mem_select_benchmark ds bench hsel d]
    refine ⟨hd, ?_⟩
    rw [is_benchmark_true_iff]
    exact ⟨hnode, 181, by rw [hid]; decide, by decide⟩

theorem linker_amlb_benchmark_witness :
    (⟨amlb_title, [⟨"anneal", "openml", "181"⟩]⟩ : Publication).datasets =
      [⟨"anneal", "openml", "181"⟩] :=
  (linker_amlb_benchmark [⟨"anneal", "openml", "181"⟩] [⟨amlb_title, []⟩]
    [⟨"anneal", "openml", "181"⟩] [⟨"anneal", "openml", "181"⟩]
    [⟨amlb_title, [⟨"anneal", "openml", "181"⟩]⟩] rfl rfl
    ⟨amlb_title, [⟨"anneal", "openml", "181"⟩]⟩ (List.Mem.head _) rfl).1

/-- C8: after the linker runs, every publication titled exactly "Searching
for exotic particles in high-energy physics with deep learning" is linked to
exactly the fetched datasets with node "openml" and name exactly "Higgs";
every dataset in its set has node "openml", so a dataset named "Higgs" with
any other node (e.g. "other_node") is not linked by this rule. -/
theorem linker_higgs_rule (ds : List DatasetDescription) (ps : List Publication)
    (ds₂ : List DatasetDescription) (ps₂ : List Publication)
    (hlink : link_datasets_with_publications ds ps = some (ds₂, ps₂)) :
    ∀ p ∈ ps₂, p.title = higgs_title →
      p.datasets = ds.filter (fun d => d.node == "openml" && d.name == "Higgs") ∧
      (∀ d ∈ p.datasets, d.node = "openml" ∧ d.name = "Higgs" ∧ d ∈ ds) ∧
      (∀ d ∈ ds, d.node ≠ "openml" → d ∉ p.datasets) := by
  unfold link_datasets_with_publications at hlink
  cases hs : select_benchmark_datasets ds with
  | none => rw [hs] at hlink; simp at hlink
  | some bench =>
    rw [hs] at hlink
    simp only [Option.some.injEq, Prod.mk.injEq] at hlink
    obtain ⟨hds, hps⟩ := hlink
    subst hps
    intro p hp ht
    rw [List.mem_map] at hp
    obtain ⟨r, hr, rfl⟩ := hp
    rw [List.mem_map] at hr
    obtain ⟨q, hq, rfl⟩ := hr
    have hqt : q.title = higgs_title := by
      rw [apply_benchmark_rule_title, apply_higgs_rule_title] at ht
      exact ht
    have hne : (higgs_title == amlb_title) = false := by decide
    have h1 : apply_higgs_rule ds q
        = { q with datasets :=
            ds.filter (fun d => d.node == "openml" && d.name == "Higgs") } := by
      unfold apply_higgs_rule
      simp [hqt]
    have h2 : apply_benchmark_rule bench (apply_higgs_rule ds q)
        = { q with datasets :=
            ds.filter (fun d => d.node == "openml" && d.name == "Higgs") } := by
      rw [h1]
      unfold apply_benchmark_rule
      simp [hqt, hne]
    rw [h2]
    refine ⟨rfl, ?_, ?_⟩
    · intro d hd
      simp only [List.mem_filter, Bool.and_eq_true, beq_iff_eq] at hd
      exact ⟨hd.2.1, hd.2.2, hd.1⟩
    · intro d hd hnode hmem
      simp only [List.mem_filter, Bool.and_eq_true, beq_iff_eq] at hmem
      exact hnode hmem.2.1

theorem linker_higgs_rule_witness :
    (⟨higgs_title, [⟨"Higgs", "openml", "23512"⟩]⟩ : Publication).datasets =
      [⟨"Higgs", "openml", "23512"⟩, ⟨"Higgs", "other_node", "23512"⟩].filter
        (fun d => d.node == "openml" && d.name == "Higgs") :=
  (linker_higgs_rule
    [⟨"Higgs", "openml", "23512"⟩, ⟨"Higgs", "other_node", "23512"⟩]
    [⟨higgs_title, []⟩]
    [⟨"Higgs", "openml", "23512"⟩, ⟨"Higgs", "other_node", "23512"⟩]
    [⟨higgs_title, [⟨"Higgs", "openml", "23512"⟩]⟩] rfl
    ⟨higgs_title, [⟨"Higgs", "openml", "23512"⟩]⟩ (List.Mem.head _) rfl).1

theorem select_benchmark_total (ds : List DatasetDescription)
    (h : ∀ d ∈ ds, d.node = "openml" →
      (pyInt d.node_specific_identifier).isSome = true) :
    (select_benchmark_datasets ds).isSome = true := by
  induction ds with
  | nil => rfl
  | cons x xs ih =>
    unfold select_benchmark_datasets
    cases hx : is_benchmark_dataset x with
    | none =>
      exfalso
      unfold is_benchmark_dataset at hx
      by_cases hn : x.node = "openml"
      · rw [if_pos (by simp [hn])] at hx
        have hp := h x (List.Mem.head _) hn
        cases hv : pyInt x.node_specific_identifier with
        | none => rw [hv] at hp; simp at hp
        | some n => rw [hv] at hx; simp at hx
      · rw [if_neg (by simp [hn])] at hx
        simp at hx
    | some b =>
      have hxs := ih (fun d hd => h d (List.Mem.tail _ hd))
      cases hs : select_benchmark_datasets xs with
      | none => rw [hs] at hxs; simp at hxs
      | some rest => simp

/-- C10: the linker is not total over arbitrary string identifiers — on a
batch containing a dataset with node "openml" whose node-specific identifier
is not a decimal integer string, `_link_datasets_with_publications` raises
the unguarded `int()` parse error (first conjunct, a concrete failing input);
under the precondition that every "openml" dataset's identifier parses as an
integer, that error branch is unreachable: linking completes (second
conjunct) and hence `populate_database` completes normally (third
conjunct). -/
theorem linker_int_conversion_partial_totality :
    (link_datasets_with_publications
      [⟨"bad", "openml", "not-a-number"⟩] [] = none) ∧
    (∀ (ds : List DatasetDescription) (ps : List Publication),
      (∀ d ∈ ds, d.node = "openml" →
        (pyInt d.node_specific_identifier).isSome = true) →
      (link_datasets_with_publications ds ps).isSome = true) ∧
    (∀ (only_if_empty : Bool) (dcs : Option (List DatasetConnector))
        (pcs : Option (List PublicationConnector)) (ld lp : Option Nat)
        (store : Store) (ds : List DatasetDescription) (ps : List Publication),
      materialized_fetches dcs pcs ld lp = .ok (ds, ps) →
      (∀ d ∈ ds, d.node = "openml" →
        (pyInt d.node_specific_identifier).isSome = true) →
      (populate_database store only_if_empty dcs pcs ld lp).1 = .ok ()) := by
  have hlink : ∀ (ds : List DatasetDescription) (ps : List Publication),
      (∀ d ∈ ds, d.node = "openml" →
        (pyInt d.node_specific_identifier).isSome = true) →
      (link_datasets_with_publications ds ps).isSome = true := by
    intro ds ps h
    unfold link_datasets_with_publications
    cases hs : select_benchmark_datasets ds with
    | none =>
      have := select_benchmark_total ds h
      rw [hs] at this
      simp at this
    | some bench => rfl
  refine ⟨by decide, hlink, ?_⟩
  intro only_if_empty dcs pcs ld lp store ds ps hm h
  unfold populate_database
  rw [hm]
  cases hl : link_datasets_with_publications ds ps with
  | none =>
    have := hlink ds ps h
    rw [hl] at this
    simp at this
  | some w =>
    obtain ⟨ds₂, ps₂⟩ := w
    simp only [hl]
    split <;> rfl

theorem linker_int_conversion_partial_totality_witness :
    (link_datasets_with_publications
      [(⟨"anneal", "openml", "181"⟩ : DatasetDescription)] []).isSome = true :=
  linker_int_conversion_partial_totality.2.1
    [⟨"anneal", "openml", "181"⟩] [] (by decide)
